import Mathlib

/-!
Shallow embedding of `cli/popper/commands/cmd_run.py` (the `popper run`
command).  Python control flow is modelled as pure functions: a call that can
raise `SystemExit(code)` returns a `PyResult`, and observable effects (log
lines, workflow parsing, invocations of `WorkflowRunner.run`) are recorded in
an event trace.  External collaborators (`popper.parser.Workflow`,
`popper.gha.WorkflowRunner.run`, `popper.utils.find_default_wfile`,
`popper.utils.find_recursive_wfile`, the `CI` environment variable and the
commit-message directives) are parameters collected in an `Env`.
-/

namespace Popper

/-- Outcome of running a Python call: normal return, or `SystemExit(code)`
propagating (`log.fail` raises `SystemExit(1)`). -/
inductive PyResult (α : Type) where
  | ok (a : α)
  | exit (code : Nat)
  deriving DecidableEq, Repr

/-- The keyword arguments that reach `wf_runner.run` in `run_workflow`
(`on_failure` has been popped, and `quiet`/`debug`/`log_file`/`recursive`/
`target` were popped earlier in `prepare_workflow_execution`). -/
structure RunnerKwargs where
  dry_run : Bool
  parallel : Bool
  reuse : Bool
  runtime : String
  skip : List String
  skip_clone : Bool
  skip_pull : Bool
  with_dependencies : Bool
  workspace : String
  deriving DecidableEq, Repr

/-- The keyword arguments `run_workflow` receives: `RunnerKwargs` plus the
still-present `on_failure` option. -/
structure RunKwargs extends RunnerKwargs where
  on_failure : Option String
  deriving DecidableEq, Repr

/-- The full keyword-argument set of the `cli` entry point, as produced by the
command line (or by a `popper:run[...]` directive through
`cli.make_context(...).params`, which fills every key). -/
structure CliKwargs extends RunKwargs where
  target : Option String
  debug : Bool
  quiet : Bool
  log_file : Option String
  recursive : Bool
  deriving DecidableEq, Repr

/-- Python truthiness of an optional string: `None` and `""` are falsy. -/
def truthyStr : Option String → Bool
  | none => false
  | some s => !s.isEmpty

/-- Observable events of one invocation, in order. -/
inductive Event where
  | logInfo (msg : String)
  | logWarn (msg : String)
  | logFailMsg (msg : String)
  | parseWf (wfile : String)
  | runnerRun (wfile : String) (action : Option String) (kw : RunnerKwargs)
  deriving DecidableEq, Repr

/-- External collaborators of `cmd_run.py`, modelled as data. -/
structure Env where
  /-- whether `os.environ.get('CI') == 'true'`. -/
  ciEnvTrue : Bool
  /-- result of `parse_commit_message` fed through `get_args`: one full
  keyword-argument set per `popper:run[...]` directive, in message order
  (empty when there is no directive; `None` and `[]` behave alike). -/
  popperRunInstances : List CliKwargs
  /-- `pu.find_default_wfile` (argument `none` models calling it without an
  argument). -/
  find_default_wfile : Option String → String
  /-- `pu.find_recursive_wfile()`: the discovered workflow files, in order. -/
  find_recursive_wfile : List String
  /-- whether `sys.version_info[0] < 3`. -/
  python_lt3 : Bool
  /-- outcome of `Workflow(wfile)` followed by `WorkflowRunner(wf)`: all
  parse/validation happens here and failures raise `SystemExit`. -/
  parseResult : String → PyResult Unit
  /-- outcome of `wf_runner.run(action, **kwargs)`. -/
  runResult : String → Option String → RunnerKwargs → PyResult Unit

/-- The `inspect_target` helper defined inside `prepare_workflow_execution`:
resolves the positional `TARGET` into a workflow-file argument and an optional
single-action target. -/
def inspect_target (env : Env) (target : Option String) : String × Option String :=
  match target with
  | some t =>
    if !t.isEmpty then
      if t.endsWith ".workflow" then (env.find_default_wfile (some t), none)
      else (env.find_default_wfile none, some t)
    else (env.find_default_wfile none, some t)
  | none => (env.find_default_wfile none, none)

/-- The success log at the end of `run_workflow` (`action` may have been
rebound to the fallback action by then). -/
def finishedEvent (action : Option String) (wfile : String) : Event :=
  if truthyStr action then
    Event.logInfo ("Action " ++ action.getD "" ++ " finished successfully.")
  else
    Event.logInfo ("Workflow " ++ wfile ++ " finished successfully.")

/-- `kwargs['skip'] = list()`: the runner keyword arguments with the skip set
cleared, as set up for the fallback run. -/
def clearSkip (k : RunnerKwargs) : RunnerKwargs := { k with skip := [] }

/-- `run_workflow(wfile, action, **kwargs)`: parse and validate the workflow,
check flag/argument compatibility, run it, and on a nonzero `SystemExit` run
the configured fallback action alone with the skip set cleared. -/
def run_workflow (env : Env) (wfile : String) (action : Option String)
    (kw : RunKwargs) : PyResult Unit × List Event :=
  let ev0 : List Event :=
    [Event.logInfo ("Found and running workflow at " ++ wfile),
     Event.parseWf wfile]
  match env.parseResult wfile with
  | .exit c => (.exit c, ev0)
  | .ok _ =>
    if kw.parallel && env.python_lt3 then
      (.exit 1, ev0 ++ [Event.logFailMsg "parallel is only supported on Python3"])
    else
      let ev1 := ev0 ++
        (if kw.parallel then
          [Event.logWarn "Using parallel may result in interleaved output."]
         else [])
      if kw.with_dependencies && !(truthyStr action) then
        (.exit 1, ev1 ++
          [Event.logFailMsg "with-dependencies can be used only with action argument"])
      else if !kw.skip.isEmpty && truthyStr action then
        (.exit 1, ev1 ++
          [Event.logFailMsg "skip cannot be used when action argument is passed"])
      else
        let rkw := kw.toRunnerKwargs
        let ev2 := ev1 ++ [Event.runnerRun wfile action rkw]
        match env.runResult wfile action rkw with
        | .ok _ => (.ok (), ev2 ++ [finishedEvent action wfile])
        | .exit c =>
          if (c != 0) && truthyStr kw.on_failure then
            match kw.on_failure with
            | some f =>
              let rkw2 := clearSkip rkw
              let ev3 := ev2 ++ [Event.runnerRun wfile (some f) rkw2]
              match env.runResult wfile (some f) rkw2 with
              | .ok _ => (.ok (), ev3 ++ [finishedEvent (some f) wfile])
              | .exit c2 => (.exit c2, ev3)
            | none => (.exit c, ev2)
          else (.exit c, ev2)

/-- The `for wfile in pu.find_recursive_wfile(): run_workflow(...)` loop of
the recursive branch.  A `SystemExit` raised by one iteration propagates out
of the loop. -/
def runRecursive (env : Env) (wfiles : List String) (target : Option String)
    (kw : RunKwargs) : PyResult Unit × List Event :=
  match wfiles with
  | [] => (.ok (), [])
  | w :: ws =>
    match run_workflow env w target kw with
    | (.ok _, ev) =>
      let rest := runRecursive env ws target kw
      (rest.1, ev ++ rest.2)
    | (.exit c, ev) => (.exit c, ev)

/-- `prepare_workflow_execution(**kwargs)`: pops the logging options (no
engine-visible effect modelled), then dispatches to the recursive loop or to a
single `run_workflow` on the inspected target. -/
def prepare_workflow_execution (env : Env) (kw : CliKwargs) :
    PyResult Unit × List Event :=
  if kw.recursive then
    if truthyStr kw.target || kw.with_dependencies || !kw.skip.isEmpty ||
        truthyStr kw.on_failure then
      (.exit 1,
       [Event.logFailMsg "target, with-dependencies, skip, on-failure invalid in recursive mode"])
    else
      runRecursive env env.find_recursive_wfile kw.target kw.toRunKwargs
  else
    let p := inspect_target env kw.target
    run_workflow env p.1 p.2 kw.toRunKwargs

/-- The warning emitted when a directive run would have `recursive` set. -/
def warnRecursiveIgnored : Event :=
  Event.logWarn "When CI is set, recursive is ignored."

/-- `kwargs['recursive'] = False`, as done for each CI directive run. -/
def forceOff (d : CliKwargs) : CliKwargs := { d with recursive := false }

/-- `kwargs['recursive'] = True`, as done when CI is set and no directive is
found. -/
def forceOn (d : CliKwargs) : CliKwargs := { d with recursive := true }

/-- The `for args in get_args(popper_run_instances)` loop of the CI branch of
`cli`: each directive's parameter set replaces the keyword arguments wholesale
(`ci_context.params` holds every key), `recursive` is forced off (with a
warning when it was set), and a `SystemExit` propagates out of the loop. -/
def ciDirectiveLoop (env : Env) : List CliKwargs → PyResult Unit × List Event
  | [] => (.ok (), [])
  | d :: rest =>
    let warnEv := if d.recursive then [warnRecursiveIgnored] else []
    match prepare_workflow_execution env (forceOff d) with
    | (.ok _, ev) =>
      let r := ciDirectiveLoop env rest
      (r.1, warnEv ++ ev ++ r.2)
    | (.exit c, ev) => (.exit c, warnEv ++ ev)

/-- The `cli` entry point, after command-line parsing: CI detection,
directive extraction, and dispatch to `prepare_workflow_execution`. -/
def cli (env : Env) (kw : CliKwargs) : PyResult Unit × List Event :=
  if env.ciEnvTrue then
    let hd := Event.logInfo "Running in CI environment..."
    match env.popperRunInstances with
    | [] =>
      let r := prepare_workflow_execution env (forceOn kw)
      (r.1, hd :: r.2)
    | d :: rest =>
      let r := ciDirectiveLoop env (d :: rest)
      (r.1, hd :: r.2)
  else
    prepare_workflow_execution env kw

/-- Projection of a trace onto the `wf_runner.run` invocations it contains:
(workflow file, action, skip set), in order. -/
def runnerCalls : List Event → List (String × Option String × List String)
  | [] => []
  | Event.runnerRun w a k :: rest => (w, a, k.skip) :: runnerCalls rest
  | _ :: rest => runnerCalls rest

/-- Outcome of the image-fetch step of an action execution. -/
inductive PullOutcome where
  | fetched
  | assumedLocal
  | imageUnavailable
  deriving DecidableEq, Repr

/-- Modelled from the spec: the `pull` operation of `ContainerRuntimeAdapter`
lives in `popper/gha.py`, which is not under `src/`.  Spec section 4.3:
`pull(image)` fetches the image unless `skip_pull` is set, in which case local
presence is assumed; it fails with `ImageUnavailableError` if the image is
absent and the pull is skipped, or if the pull fails. -/
def adapter_pull (skip_pull presentLocally pullSucceeds : Bool) : PullOutcome :=
  if skip_pull then
    if presentLocally then .assumedLocal else .imageUnavailable
  else
    if pullSucceeds then .fetched else .imageUnavailable

/-- Modelled from the spec: the image-fetch step of `ActionExecutor`
(`popper/gha.py`, not under `src/`) for an executed (non-skipped, non-dry-run)
node.  The executor holds the full option set (so both `skip_pull` and
`skip_clone` are in scope) and gates the adapter pull on `skip_pull` per spec
section 4.3. -/
def executor_image_fetch (kw : RunnerKwargs) (presentLocally pullSucceeds : Bool) :
    PullOutcome :=
  adapter_pull kw.skip_pull presentLocally pullSucceeds

/-! ### Shared facts about the embedding -/

theorem runnerCalls_append (a b : List Event) :
    runnerCalls (a ++ b) = runnerCalls a ++ runnerCalls b := by
  induction a with
  | nil => rfl
  | cons e rest ih =>
    cases e <;> simp [runnerCalls, ih]

theorem runnerCalls_warn (b : Bool) (m : String) :
    runnerCalls (if b = true then [Event.logWarn m] else []) = [] := by
  cases b <;> rfl

theorem runnerCalls_finished (a : Option String) (w : String) :
    runnerCalls [finishedEvent a w] = [] := by
  unfold finishedEvent
  cases h : truthyStr a <;> simp [h, runnerCalls]

/-! ### Concrete inputs used by witnesses and counterexamples -/

/-- A benign default option set (everything off, Docker runtime). -/
def kwDefault : RunKwargs :=
  { dry_run := false, parallel := false, reuse := false, runtime := "docker",
    skip := [], skip_clone := false, skip_pull := false,
    with_dependencies := false, workspace := "/ws", on_failure := none }

/-- The default full command-line option set. -/
def ckwDefault : CliKwargs :=
  { toRunKwargs := kwDefault, target := none, debug := false, quiet := false,
    log_file := none, recursive := false }

/-- A benign environment: not CI, no directives, parsing and running always
succeed. -/
def envBase : Env :=
  { ciEnvTrue := false, popperRunInstances := [],
    find_default_wfile := fun _ => "main.workflow",
    find_recursive_wfile := [],
    python_lt3 := false,
    parseResult := fun _ => .ok (),
    runResult := fun _ _ _ => .ok () }

/-! ### Claims -/

/-- Claim C6: every workflow parse/validation error is fatal and happens
before any action execution: when `Workflow(wfile)` validation raises
`SystemExit(c)`, `run_workflow` propagates exit status `c` and
`wf_runner.run` is never invoked, so no action runs. -/
theorem validation_failure_precedes_execution
    (env : Env) (wfile : String) (action : Option String) (kw : RunKwargs)
    (c : Nat) (hparse : env.parseResult wfile = .exit c) :
    (run_workflow env wfile action kw).1 = .exit c ∧
      runnerCalls (run_workflow env wfile action kw).2 = [] := by
  unfold run_workflow
  rw [hparse]
  exact ⟨rfl, rfl⟩

/-- An environment whose workflow validation always raises `SystemExit(1)`. -/
def envParseFails : Env := { envBase with parseResult := fun _ => .exit 1 }

/-- Claim C6 witness at a concrete input. -/
theorem validation_failure_precedes_execution_witness :
    (run_workflow envParseFails "main.workflow" none kwDefault).1 = .exit 1 ∧
      runnerCalls (run_workflow envParseFails "main.workflow" none kwDefault).2 = [] :=
  validation_failure_precedes_execution envParseFails "main.workflow" none
    kwDefault 1 rfl

/-- Claim C8: in a non-recursive run, when `with_dependencies` is set but the
resolved action target is absent (Python-falsy), the invocation exits with a
nonzero-raising `SystemExit` before `wf_runner.run` is ever invoked. -/
theorem with_dependencies_requires_action
    (env : Env) (kw : CliKwargs)
    (hrec : kw.recursive = false)
    (hwd : kw.with_dependencies = true)
    (hact : truthyStr (inspect_target env kw.target).2 = false) :
    (∃ c, (prepare_workflow_execution env kw).1 = .exit c) ∧
      runnerCalls (prepare_workflow_execution env kw).2 = [] := by
  unfold prepare_workflow_execution
  rw [hrec]
  simp only [Bool.false_eq_true, if_false]
  unfold run_workflow
  cases hp : env.parseResult (inspect_target env kw.target).1 with
  | exit c => exact ⟨⟨c, rfl⟩, rfl⟩
  | ok a =>
    have hcond : (kw.with_dependencies &&
        !truthyStr (inspect_target env kw.target).2) = true := by
      rw [hwd, hact]
      rfl
    cases hkp : kw.parallel <;> cases hpy : env.python_lt3 <;>
      refine ⟨⟨1, ?_⟩, ?_⟩ <;>
      simp [hcond, runnerCalls_append, runnerCalls]

/-- Claim C8 witness at a concrete input (no target at all). -/
theorem with_dependencies_requires_action_witness :
    (∃ c, (prepare_workflow_execution envBase
        { ckwDefault with with_dependencies := true }).1 = .exit c) ∧
      runnerCalls (prepare_workflow_execution envBase
        { ckwDefault with with_dependencies := true }).2 = [] :=
  with_dependencies_requires_action envBase
    { ckwDefault with with_dependencies := true } rfl rfl rfl

/-- Claim C3: a non-recursive run that combines a nonempty skip set with a
single-action target (a nonempty target that does not name a `.workflow`
file) raises `SystemExit` before `wf_runner.run` is ever invoked, so no
action executes. -/
theorem skip_with_action_target_rejected
    (env : Env) (kw : CliKwargs) (t : String)
    (hrec : kw.recursive = false)
    (ht : kw.target = some t) (hne : t.isEmpty = false)
    (hwf : t.endsWith ".workflow" = false)
    (hskip : kw.skip ≠ []) :
    (∃ c, (prepare_workflow_execution env kw).1 = .exit c) ∧
      runnerCalls (prepare_workflow_execution env kw).2 = [] := by
  unfold prepare_workflow_execution
  rw [hrec]
  simp only [Bool.false_eq_true, if_false]
  have hit : inspect_target env kw.target = (env.find_default_wfile none, some t) := by
    rw [ht]
    simp [inspect_target, hne, hwf]
  rw [hit]
  unfold run_workflow
  cases hp : env.parseResult (env.find_default_wfile none) with
  | exit c => exact ⟨⟨c, rfl⟩, rfl⟩
  | ok a =>
    have htr : truthyStr (some t) = true := by
      simp [truthyStr, hne]
    have hdep : (kw.with_dependencies && !truthyStr (some t)) = false := by
      rw [htr]
      simp
    have hsk : (!kw.skip.isEmpty && truthyStr (some t)) = true := by
      rw [htr]
      cases hsq : kw.skip with
      | nil => exact absurd hsq hskip
      | cons x xs => rfl
    cases hkp : kw.parallel <;> cases hpy : env.python_lt3 <;>
      refine ⟨⟨1, ?_⟩, ?_⟩ <;>
      simp [hdep, hsk, runnerCalls_append, runnerCalls]

/-- Claim C1: when the primary run raises `SystemExit` with a nonzero code
and a fallback action `f` is configured, `run_workflow` invokes the runner a
second time with `f` as the sole action target and the skip set cleared to
`[]`, and the whole invocation's outcome is exactly the fallback run's
outcome (normal return, hence exit status 0, when `f` succeeds; the
fallback's own `SystemExit` code otherwise), not the primary failure's
code. -/
theorem fallback_runs_alone_with_cleared_skip
    (env : Env) (wfile : String) (action : Option String) (kw : RunKwargs)
    (f : String) (c : Nat)
    (hparse : env.parseResult wfile = .ok ())
    (hpy : (kw.parallel && env.python_lt3) = false)
    (hdep : (kw.with_dependencies && !truthyStr action) = false)
    (hskip : (!kw.skip.isEmpty && truthyStr action) = false)
    (hof : kw.on_failure = some f) (hf : f.isEmpty = false)
    (hrun : env.runResult wfile action kw.toRunnerKwargs = .exit c)
    (hc : c ≠ 0) :
    (run_workflow env wfile action kw).1 =
        env.runResult wfile (some f) (clearSkip kw.toRunnerKwargs) ∧
      runnerCalls (run_workflow env wfile action kw).2 =
        [(wfile, action, kw.skip), (wfile, some f, [])] := by
  have hcnz : (c != 0) = true := by
    simpa using hc
  have htf : truthyStr (some f) = true := by
    simp [truthyStr, hf]
  unfold run_workflow
  rw [hparse]
  simp only [hpy, hdep, hskip, Bool.false_eq_true, if_false]
  rw [hrun, hof]
  simp only [hcnz, htf, Bool.true_and, if_true]
  cases h2 : env.runResult wfile (some f) (clearSkip kw.toRunnerKwargs) with
  | ok a =>
    cases a
    constructor
    · rfl
    · simp [clearSkip, runnerCalls_append, runnerCalls_warn, runnerCalls_finished, runnerCalls]
  | exit c2 =>
    constructor
    · rfl
    · simp [clearSkip, runnerCalls_append, runnerCalls_warn, runnerCalls_finished, runnerCalls]

/-- An environment where every primary run fails with exit status 3 and the
action named `cleanup` succeeds. -/
def envFallback : Env :=
  { envBase with
    runResult := fun _ a _ => if a = some "cleanup" then .ok () else .exit 3 }

/-- Claim C1 witness at a concrete input. -/
theorem fallback_runs_alone_with_cleared_skip_witness :
    (run_workflow envFallback "main.workflow" none
        { kwDefault with on_failure := some "cleanup" }).1 =
      envFallback.runResult "main.workflow" (some "cleanup")
        (clearSkip (RunKwargs.toRunnerKwargs
          { kwDefault with on_failure := some "cleanup" })) ∧
      runnerCalls (run_workflow envFallback "main.workflow" none
          { kwDefault with on_failure := some "cleanup" }).2 =
        [("main.workflow", none, []), ("main.workflow", some "cleanup", [])] :=
  fallback_runs_alone_with_cleared_skip envFallback "main.workflow" none
    { kwDefault with on_failure := some "cleanup" } "cleanup" 3
    rfl rfl rfl rfl rfl rfl rfl (by decide)

/-- Claim C3 witness at a concrete input. -/
theorem skip_with_action_target_rejected_witness :
    (∃ c, (prepare_workflow_execution envBase
        { ckwDefault with target := some "build", skip := ["lint"] }).1 = .exit c) ∧
      runnerCalls (prepare_workflow_execution envBase
        { ckwDefault with target := some "build", skip := ["lint"] }).2 = [] :=
  skip_with_action_target_rejected envBase
    { ckwDefault with target := some "build", skip := ["lint"] } "build"
    rfl rfl rfl rfl (by decide)

/-- Behaviour of `run_workflow` in "plain" mode (no parallel flag, no
dependency flag, empty skip set, no fallback): the run's outcome is exactly
the runner's outcome and the runner is invoked exactly once. -/
theorem run_workflow_plain
    (env : Env) (w : String) (target : Option String) (kw : RunKwargs)
    (hparse : env.parseResult w = .ok ())
    (hpar : kw.parallel = false)
    (hwd : kw.with_dependencies = false)
    (hs : kw.skip = [])
    (hof : truthyStr kw.on_failure = false) :
    (run_workflow env w target kw).1 =
        (match env.runResult w target kw.toRunnerKwargs with
          | .ok _ => PyResult.ok ()
          | .exit c => .exit c) ∧
      runnerCalls (run_workflow env w target kw).2 =
        [(w, target, kw.skip)] := by
  unfold run_workflow
  rw [hparse]
  simp only [hpar, hwd, hs, Bool.false_and, Bool.false_eq_true, if_false,
    List.isEmpty_nil, Bool.not_true, Bool.and_false, List.append_nil]
  cases hr : env.runResult w target kw.toRunnerKwargs with
  | ok a =>
    cases a
    constructor
    · rfl
    · simp [hs, runnerCalls_append, runnerCalls_finished, runnerCalls]
  | exit c =>
    constructor
    · simp [hof]
    · simp [hof, hs, runnerCalls_append, runnerCalls]

/-- The recursive loop stops at the first file whose run raises `SystemExit`:
the loop's outcome is that exit code, the failing file and its predecessors
are each run once, and no later file is touched. -/
theorem runRecursive_first_exit
    (env : Env) (target : Option String) (kw : RunKwargs)
    (hparse : ∀ x, env.parseResult x = .ok ())
    (hpar : kw.parallel = false)
    (hwd : kw.with_dependencies = false)
    (hs : kw.skip = [])
    (hof : truthyStr kw.on_failure = false) :
    ∀ (pre : List String) (w : String) (post : List String) (c : Nat),
      (∀ x ∈ pre, env.runResult x target kw.toRunnerKwargs = .ok ()) →
      env.runResult w target kw.toRunnerKwargs = .exit c →
      (runRecursive env (pre ++ w :: post) target kw).1 = .exit c ∧
        runnerCalls (runRecursive env (pre ++ w :: post) target kw).2 =
          (pre ++ [w]).map (fun x => (x, target, kw.skip)) := by
  intro pre
  induction pre with
  | nil =>
    intro w post c _ hw
    have hrw := run_workflow_plain env w target kw (hparse w) hpar hwd hs hof
    simp only [List.nil_append]
    unfold runRecursive
    cases hval : run_workflow env w target kw with
    | mk r ev =>
      rw [hval] at hrw
      rw [hw] at hrw
      obtain ⟨h1, h2⟩ := hrw
      cases r with
      | ok a => exact absurd h1 (by simp)
      | exit c0 =>
        have : c0 = c := by simpa using h1
        subst this
        exact ⟨rfl, by simpa using h2⟩
  | cons x pre ih =>
    intro w post c hpre hw
    have hx := hpre x (List.mem_cons_self x pre)
    have hrw := run_workflow_plain env x target kw (hparse x) hpar hwd hs hof
    simp only [List.cons_append]
    unfold runRecursive
    cases hval : run_workflow env x target kw with
    | mk r ev =>
      rw [hval] at hrw
      rw [hx] at hrw
      obtain ⟨h1, h2⟩ := hrw
      cases r with
      | exit c0 => exact absurd h1 (by simp)
      | ok a =>
        have hrest := ih w post c
          (fun y hy => hpre y (List.mem_cons_of_mem x hy)) hw
        constructor
        · exact hrest.1
        · simp [runnerCalls_append, h2, hrest.2]

/-- Two discovered workflow files; the first one fails with exit status 2,
the second would succeed. -/
def envTwoFiles : Env :=
  { envBase with
    find_recursive_wfile := ["a.workflow", "b.workflow"],
    runResult := fun w _ _ => if w = "a.workflow" then .exit 2 else .ok () }

/-- Claim C2 counterexample: in recursive mode with two discovered files,
where the first file's run exits with status 2 and the second would succeed,
the runner is never invoked on the second file and the overall status is the
first failure's code — invocations are not independent and no logical OR of
per-file statuses is formed. -/
theorem recursive_failure_stops_loop_cex :
    (prepare_workflow_execution envTwoFiles
        { ckwDefault with recursive := true }).1 = .exit 2 ∧
      runnerCalls (prepare_workflow_execution envTwoFiles
          { ckwDefault with recursive := true }).2 =
        [("a.workflow", none, [])] := by
  decide

/-- Claim C2 (amended): in recursive multi-workflow mode the runner is
invoked once per discovered file in discovery order only up to and including
the first file whose run raises `SystemExit`; that file's exit code becomes
the whole invocation's status and the remaining discovered files are not run
(there is no independent continuation and no logical-OR aggregation). -/
theorem recursive_run_aborts_at_first_failure
    (env : Env) (kw : CliKwargs) (pre post : List String) (w : String) (c : Nat)
    (hrec : kw.recursive = true)
    (ht : truthyStr kw.target = false)
    (hwd : kw.with_dependencies = false)
    (hs : kw.skip = [])
    (hof : truthyStr kw.on_failure = false)
    (hpar : kw.parallel = false)
    (hfiles : env.find_recursive_wfile = pre ++ w :: post)
    (hparse : ∀ x, env.parseResult x = .ok ())
    (hpre : ∀ x ∈ pre, env.runResult x kw.target kw.toRunKwargs.toRunnerKwargs = .ok ())
    (hw : env.runResult w kw.target kw.toRunKwargs.toRunnerKwargs = .exit c) :
    (prepare_workflow_execution env kw).1 = .exit c ∧
      runnerCalls (prepare_workflow_execution env kw).2 =
        (pre ++ [w]).map (fun x => (x, kw.target, kw.skip)) := by
  unfold prepare_workflow_execution
  rw [hrec]
  have hguard : (truthyStr kw.target || kw.with_dependencies || !kw.skip.isEmpty ||
      truthyStr kw.on_failure) = false := by
    rw [ht, hwd, hs, hof]
    rfl
  simp only [hguard, Bool.false_eq_true, if_false, if_true]
  rw [hfiles]
  exact runRecursive_first_exit env kw.target kw.toRunKwargs hparse hpar hwd hs hof
    pre w post c hpre hw

/-- Three discovered workflow files; only the middle one fails (status 5). -/
def envThreeFiles : Env :=
  { envBase with
    find_recursive_wfile := ["a.workflow", "b.workflow", "c.workflow"],
    runResult := fun w _ _ => if w = "b.workflow" then .exit 5 else .ok () }

/-- Claim C2 (amended) witness at a concrete input. -/
theorem recursive_run_aborts_at_first_failure_witness :
    (prepare_workflow_execution envThreeFiles
        { ckwDefault with recursive := true }).1 = .exit 5 ∧
      runnerCalls (prepare_workflow_execution envThreeFiles
          { ckwDefault with recursive := true }).2 =
        (["a.workflow"] ++ ["b.workflow"]).map
          (fun x => (x, (none : Option String), ([] : List String))) :=
  recursive_run_aborts_at_first_failure envThreeFiles
    { ckwDefault with recursive := true } ["a.workflow"] ["c.workflow"]
    "b.workflow" 5 rfl rfl rfl rfl rfl rfl rfl (fun _ => rfl) (by decide) rfl

/-- One discovered workflow file whose run would succeed. -/
def envOneFile : Env :=
  { envBase with find_recursive_wfile := ["a.workflow"] }

/-- Claim C4 counterexample: a recursive run with the nonempty skip set
`["b"]` is rejected with `SystemExit(1)` before any discovered workflow file
is run — the skip set is not accepted and not applied to the discovered
file. -/
theorem recursive_skip_rejected_cex :
    (prepare_workflow_execution envOneFile
        { ckwDefault with recursive := true, skip := ["b"] }).1 = .exit 1 ∧
      runnerCalls (prepare_workflow_execution envOneFile
          { ckwDefault with recursive := true, skip := ["b"] }).2 = [] := by
  decide

/-- Claim C4 (amended): for every recursive run, a nonempty skip set is
rejected: the invocation raises `SystemExit(1)` before any discovered
workflow file is run, so skip applies only to full non-recursive runs. -/
theorem recursive_nonempty_skip_rejected
    (env : Env) (kw : CliKwargs)
    (hrec : kw.recursive = true) (hs : kw.skip ≠ []) :
    (prepare_workflow_execution env kw).1 = .exit 1 ∧
      runnerCalls (prepare_workflow_execution env kw).2 = [] := by
  unfold prepare_workflow_execution
  rw [hrec]
  have hguard : (truthyStr kw.target || kw.with_dependencies || !kw.skip.isEmpty ||
      truthyStr kw.on_failure) = true := by
    cases hsq : kw.skip with
    | nil => exact absurd hsq hs
    | cons x xs => simp
  simp only [hguard, if_true]
  exact ⟨trivial, rfl⟩

/-- Claim C4 (amended) witness at a concrete input. -/
theorem recursive_nonempty_skip_rejected_witness :
    (prepare_workflow_execution envOneFile
        { ckwDefault with recursive := true, skip := ["lint"] }).1 = .exit 1 ∧
      runnerCalls (prepare_workflow_execution envOneFile
          { ckwDefault with recursive := true, skip := ["lint"] }).2 = [] :=
  recursive_nonempty_skip_rejected envOneFile
    { ckwDefault with recursive := true, skip := ["lint"] } rfl (by decide)

/-- Claim C5: for an executed node, the image-fetch step is gated by
`skip_pull` and only by `skip_pull`: with `skip_pull` unset the image is
fetched (or the fetch fails), with `skip_pull` set the fetch is skipped and
local presence is assumed, and the outcome never depends on `skip_clone`. -/
theorem skip_pull_gates_image_fetch
    (kw : RunnerKwargs) (present pullOk : Bool) :
    (kw.skip_pull = false →
      executor_image_fetch kw present pullOk =
        (if pullOk then .fetched else .imageUnavailable)) ∧
    (kw.skip_pull = true →
      executor_image_fetch kw present pullOk =
        (if present then .assumedLocal else .imageUnavailable)) ∧
    (∀ b, executor_image_fetch { kw with skip_clone := b } present pullOk =
      executor_image_fetch kw present pullOk) := by
  refine ⟨fun h => ?_, fun h => ?_, fun b => rfl⟩ <;>
    simp [executor_image_fetch, adapter_pull, h]

/-- Claim C5 witness at a concrete input. -/
theorem skip_pull_gates_image_fetch_witness :
    executor_image_fetch kwDefault.toRunnerKwargs true true = PullOutcome.fetched :=
  (skip_pull_gates_image_fetch kwDefault.toRunnerKwargs true true).1 rfl

/-- When every directive run returns normally, the CI directive loop performs
one `prepare_workflow_execution` per directive, in order, each with
`recursive` forced off and preceded by the ignore warning when the directive
had `recursive` set. -/
theorem ciDirectiveLoop_all_ok (env : Env) :
    ∀ ds : List CliKwargs,
      (∀ x ∈ ds, (prepare_workflow_execution env (forceOff x)).1 = .ok ()) →
      ciDirectiveLoop env ds =
        (.ok (), ds.flatMap (fun x =>
          (if x.recursive then [warnRecursiveIgnored] else []) ++
            (prepare_workflow_execution env (forceOff x)).2)) := by
  intro ds
  induction ds with
  | nil => intro _; rfl
  | cons d rest ih =>
    intro h
    have hd := h d (List.mem_cons_self d rest)
    have ht := ih (fun x hx => h x (List.mem_cons_of_mem d hx))
    unfold ciDirectiveLoop
    cases hp : prepare_workflow_execution env (forceOff d) with
    | mk r ev =>
      rw [hp] at hd
      cases r with
      | exit c => exact absurd hd (by simp)
      | ok a =>
        cases a
        rw [ht]
        simp [hp]

/-- Claim C7: with CI set and `popper:run[...]` directives present, the
engine consumes the directive option sets one at a time, performing one
workflow execution (`prepare_workflow_execution` with `recursive` forced off)
per directive, in the order the directives appear in the commit message;
here stated under the assumption that every directive run returns
normally. -/
theorem ci_directives_run_in_order
    (env : Env) (kw : CliKwargs) (d : CliKwargs) (rest : List CliKwargs)
    (hci : env.ciEnvTrue = true)
    (hds : env.popperRunInstances = d :: rest)
    (hok : ∀ x ∈ d :: rest,
      (prepare_workflow_execution env (forceOff x)).1 = .ok ()) :
    cli env kw =
      (.ok (), Event.logInfo "Running in CI environment..." ::
        (d :: rest).flatMap (fun x =>
          (if x.recursive then [warnRecursiveIgnored] else []) ++
            (prepare_workflow_execution env (forceOff x)).2)) := by
  unfold cli
  rw [hci, hds]
  simp [ciDirectiveLoop_all_ok env (d :: rest) hok]

/-- Two directives: the first targets the action `x` (with `recursive`
requested, which must be ignored), the second is a default run. -/
def envDirectives : Env :=
  { envBase with
    ciEnvTrue := true,
    popperRunInstances :=
      [{ ckwDefault with target := some "x", recursive := true }, ckwDefault] }

/-- Claim C7 witness at a concrete input. -/
theorem ci_directives_run_in_order_witness :
    cli envDirectives ckwDefault =
      (.ok (), Event.logInfo "Running in CI environment..." ::
        ([{ ckwDefault with target := some "x", recursive := true }, ckwDefault].flatMap
          (fun x =>
            (if x.recursive then [warnRecursiveIgnored] else []) ++
              (prepare_workflow_execution envDirectives (forceOff x)).2))) :=
  ci_directives_run_in_order envDirectives ckwDefault
    { ckwDefault with target := some "x", recursive := true } [ckwDefault]
    rfl rfl (by decide)

/-- Claim C9: resolution of the positional target.  A nonempty target ending
in `.workflow` selects that workflow file with no single-action target; any
other nonempty target selects the default workflow file with the target as
the action name; no target selects the default workflow file with no action.
In every non-recursive run, execution proceeds on exactly this resolved
(file, action) pair. -/
theorem target_resolution
    (env : Env) (t : String) (hne : t.isEmpty = false) :
    ((t.endsWith ".workflow" = true →
        inspect_target env (some t) = (env.find_default_wfile (some t), none)) ∧
      (t.endsWith ".workflow" = false →
        inspect_target env (some t) = (env.find_default_wfile none, some t))) ∧
    inspect_target env none = (env.find_default_wfile none, none) ∧
    ∀ kw : CliKwargs, kw.recursive = false →
      prepare_workflow_execution env kw =
        run_workflow env (inspect_target env kw.target).1
          (inspect_target env kw.target).2 kw.toRunKwargs := by
  refine ⟨⟨fun h => ?_, fun h => ?_⟩, rfl, fun kw hrec => ?_⟩
  · simp [inspect_target, hne, h]
  · simp [inspect_target, hne, h]
  · unfold prepare_workflow_execution
    rw [hrec]
    simp

/-- Claim C9 witness at a concrete input. -/
theorem target_resolution_witness :
    ((("ci/test.workflow").endsWith ".workflow" = true →
        inspect_target envBase (some "ci/test.workflow") =
          (envBase.find_default_wfile (some "ci/test.workflow"), none)) ∧
      (("ci/test.workflow").endsWith ".workflow" = false →
        inspect_target envBase (some "ci/test.workflow") =
          (envBase.find_default_wfile none, some "ci/test.workflow"))) ∧
    inspect_target envBase none = (envBase.find_default_wfile none, none) ∧
    ∀ kw : CliKwargs, kw.recursive = false →
      prepare_workflow_execution envBase kw =
        run_workflow envBase (inspect_target envBase kw.target).1
          (inspect_target envBase kw.target).2 kw.toRunKwargs :=
  target_resolution envBase "ci/test.workflow" rfl

/-- Claim C10: with CI set and no `popper:run[...]` directive, the invocation
runs with `recursive` forced on, regardless of the `--recursive` flag on the
command line; with directives present, every directive run starts with
`recursive` forced off, preceded by a warning exactly when the directive's
parameters had `recursive` set. -/
theorem ci_mode_recursive_policy
    (env : Env) (kw : CliKwargs) (hci : env.ciEnvTrue = true) :
    (env.popperRunInstances = [] →
      ∀ b : Bool, cli env { kw with recursive := b } =
        ((prepare_workflow_execution env (forceOn kw)).1,
          Event.logInfo "Running in CI environment..." ::
            (prepare_workflow_execution env (forceOn kw)).2)) ∧
    (∀ d rest, env.popperRunInstances = d :: rest →
      ∃ (r : PyResult Unit) (tl : List Event),
        cli env kw = (r,
          Event.logInfo "Running in CI environment..." ::
            ((if d.recursive then [warnRecursiveIgnored] else []) ++
              (prepare_workflow_execution env (forceOff d)).2 ++ tl))) := by
  constructor
  · intro h0 b
    unfold cli
    rw [hci, h0]
    have he : forceOn { kw with recursive := b } = forceOn kw := rfl
    rw [he]
    simp
  · intro d rest hds
    have hcli : cli env kw =
        ((ciDirectiveLoop env (d :: rest)).1,
          Event.logInfo "Running in CI environment..." ::
            (ciDirectiveLoop env (d :: rest)).2) := by
      unfold cli
      rw [hci, hds]
      simp
    rw [hcli]
    unfold ciDirectiveLoop
    cases hp : prepare_workflow_execution env (forceOff d) with
    | mk r2 ev =>
      cases r2 with
      | ok a =>
        refine ⟨(ciDirectiveLoop env rest).1, (ciDirectiveLoop env rest).2, ?_⟩
        simp
      | exit c =>
        refine ⟨.exit c, [], ?_⟩
        simp

/-- CI set, no directives. -/
def envCIPlain : Env := { envBase with ciEnvTrue := true }

/-- Claim C10 witness at a concrete input (no directives, `--recursive` off
on the command line, recursion still forced on). -/
theorem ci_mode_recursive_policy_witness :
    cli envCIPlain { ckwDefault with recursive := false } =
      ((prepare_workflow_execution envCIPlain (forceOn ckwDefault)).1,
        Event.logInfo "Running in CI environment..." ::
          (prepare_workflow_execution envCIPlain (forceOn ckwDefault)).2) :=
  (ci_mode_recursive_policy envCIPlain ckwDefault rfl).1 rfl false

end Popper
